import Mathlib

/-
Verification of the frame-ingestion and task-progression core of the
WorkAR backend against its specification.

The Python source is shallowly embedded: pure classes become structures,
methods become functions, the module-level mutable globals become explicit
state records threaded through the handler functions, and the external
vision-model collaborators (frame analysis, object localization) become
function parameters.  Machine floats from the source appear only as time
stamps and normalized box coordinates; they are modelled by exact rationals.
-/

namespace WorkAR

/-! ## tasks/Step.py -/

/-- Embeds `Step` (src/tasks/Step.py): an action plus focus objects. -/
structure Step where
  action : String
  focus_objects : List String
deriving DecidableEq

/-! ## tasks/Task.py

The `Task.__init__` / `task_list` setter accepts a heterogeneous Python list
whose items are either `Step` objects or dicts.  A dict field can be missing,
have a value of the wrong runtime type, or hold a value of the right type;
`DictField` models exactly these three possibilities, and `PyListItem` models
an element of a Python list that is or is not a string. -/

/-- An element of the `focus_objects` Python list: a string or anything else. -/
inductive PyListItem
  | str (s : String)
  | nonString
deriving DecidableEq

/-- A Python dict field as seen by the validation in the `task_list` setter. -/
inductive DictField (α : Type)
  | missing
  | wrongType
  | value (a : α)
deriving DecidableEq

/-- A step dict passed to `Task(name, task_list)`, with its two checked keys. -/
structure StepDict where
  action : DictField String
  focus_objects : DictField (List PyListItem)
deriving DecidableEq

/-- One element of the `task_list` argument: a `Step` object or a dict. -/
inductive TaskListItem
  | step (s : Step)
  | dict (d : StepDict)
deriving DecidableEq

/-- Whether a PyListItem is a string (the per-element check of the setter). -/
def PyListItem.isStr : PyListItem → Bool
  | PyListItem.str _ => true
  | PyListItem.nonString => false

/-- Embeds the dict branch of the `task_list` setter (src/tasks/Task.py lines
46-61): checks `focus_objects` presence, list type and string elements, then
`action` presence and string type, in the source order, and builds the Step. -/
def validateStepDict (item : StepDict) : Except String Step :=
  match item.focus_objects with
  | DictField.missing => Except.error "Step dictionary is missing focus_objects key"
  | DictField.wrongType => Except.error "focus_objects in a step must be a list"
  | DictField.value objs =>
    if objs.all PyListItem.isStr then
      match item.action with
      | DictField.missing => Except.error "Step dictionary is missing action key"
      | DictField.wrongType => Except.error "action in a step must be a string"
      | DictField.value a =>
        Except.ok { action := a,
                    focus_objects := objs.filterMap (fun o =>
                      match o with
                      | PyListItem.str s => some s
                      | PyListItem.nonString => none) }
    else Except.error "Each item in focus_objects must be a string"

/-- Embeds the loop of the `task_list` setter (src/tasks/Task.py lines 42-65):
`Step` objects are appended without any validation; dicts are validated; the
first invalid dict aborts construction. -/
def validateTaskList : List TaskListItem → Except String (List Step)
  | [] => Except.ok []
  | TaskListItem.step s :: rest =>
    match validateTaskList rest with
    | Except.ok steps => Except.ok (s :: steps)
    | Except.error e => Except.error e
  | TaskListItem.dict d :: rest =>
    match validateStepDict d with
    | Except.error e => Except.error e
    | Except.ok s =>
      match validateTaskList rest with
      | Except.ok steps => Except.ok (s :: steps)
      | Except.error e => Except.error e

/-- Embeds a constructed `Task` (src/tasks/Task.py): name plus validated steps. -/
structure Task where
  name : String
  task_list : List Step
deriving DecidableEq

/-- Embeds `Task.__init__` (src/tasks/Task.py lines 6-13): `None` becomes the
empty list, otherwise the `task_list` setter validates; a raised
`ValueError`/`TypeError` is the `Except.error` case. -/
def Task.build (name : String) (task_list : Option (List TaskListItem)) :
    Except String Task :=
  match task_list with
  | none => Except.ok { name := name, task_list := [] }
  | some items =>
    match validateTaskList items with
    | Except.ok steps => Except.ok { name := name, task_list := steps }
    | Except.error e => Except.error e

/-- Embeds `Task.getStep` (src/tasks/Task.py lines 67-73): the sentinel step
for any integer index outside bounds, the list element otherwise.  (The
`TypeError` raised for a non-integer index is outside the embedded domain:
the index argument here is already an integer.) -/
def Task.getStep (t : Task) (index : Int) : Step :=
  if h : index < 0 ∨ (t.task_list.length : Int) ≤ index then
    { action := "none", focus_objects := [] }
  else
    t.task_list.get ⟨index.toNat, by push_neg at h; omega⟩

/-! ## states/TaskState.py -/

/-- Embeds `TaskState` (src/states/TaskState.py): a task and a step index. -/
structure TaskState where
  task : Task
  index : Int
deriving DecidableEq

/-- Embeds `TaskState.getCurrentStep`. -/
def TaskState.getCurrentStep (ts : TaskState) : Step :=
  ts.task.getStep ts.index

/-- Embeds `TaskState.getPreviousStep`. -/
def TaskState.getPreviousStep (ts : TaskState) : Step :=
  ts.task.getStep (ts.index - 1)

/-- Embeds `TaskState.getNextStep`. -/
def TaskState.getNextStep (ts : TaskState) : Step :=
  ts.task.getStep (ts.index + 1)

/-- Embeds `TaskState.moveToNextStep` (src/states/TaskState.py lines 105-118):
increments the index; past the end it returns `none` (the Python `None`
terminal marker), otherwise the new current step.  The mutation of `self`
becomes the returned updated state. -/
def TaskState.moveToNextStep (ts : TaskState) : TaskState × Option Step :=
  let ts2 : TaskState := { task := ts.task, index := ts.index + 1 }
  if (ts.task.task_list.length : Int) ≤ ts2.index then (ts2, none)
  else (ts2, some ts2.getCurrentStep)

/-! ## states/VideoState.py -/

/-- Embeds `VideoState` (src/states/VideoState.py): a `collections.deque`
with `maxlen=10` holding frame references. -/
structure VideoState where
  images : List String
deriving DecidableEq

/-- Embeds `VideoState.add_image`: a deque append with `maxlen=10` appends on
the right and evicts from the left until at most ten elements remain. -/
def VideoState.add_image (vs : VideoState) (image : String) : VideoState :=
  let ys := vs.images ++ [image]
  { images := if 10 < ys.length then ys.drop (ys.length - 10) else ys }

/-- Embeds `VideoState.get_images`: the current contents as a list. -/
def VideoState.get_images (vs : VideoState) : List String :=
  vs.images

/-- A sequence of `add_image` calls on a fresh `VideoState()`. -/
def VideoState.addAll (frames : List String) : VideoState :=
  frames.foldl VideoState.add_image { images := [] }

/-! ## processing/ar_glasses_instruction.py -/

/-- A normalized bounding box returned by the object-localization collaborator
(`models/open_vocab_bbox_model.py`); coordinates are modelled by rationals. -/
structure BBox where
  x_min : ℚ
  y_min : ℚ
  x_max : ℚ
  y_max : ℚ
deriving DecidableEq

/-- A normalized center point `(x, y)`. -/
structure Coordinates where
  x : ℚ
  y : ℚ
deriving DecidableEq

/-- Embeds `ObjectInfo` (src/processing/ar_glasses_instruction.py). -/
structure ObjectInfo where
  title : String
  coordinates : Option Coordinates
  bbox : Option BBox
deriving DecidableEq

/-- Embeds `ARGlassesInstruction` (src/processing/ar_glasses_instruction.py).
`TaskStatus` (processing/task_status.py, a `Literal` alias not present under
src/) is embedded as a plain string; the camera pose dict is kept opaque. -/
structure ARGlassesInstruction where
  current_task_status : String
  objects : Option (List ObjectInfo)
  action : Option String
  message : Option String
  raw_response : Option String
  coordinates_relative_to_camera_pose : Option String
deriving DecidableEq

/-- Embeds `ARGlassesInstruction.from_step` (lines 156-168). -/
def ARGlassesInstruction.from_step (current_task_status : String) (step : Step) :
    ARGlassesInstruction :=
  { current_task_status := current_task_status,
    objects := some (step.focus_objects.map (fun obj =>
      { title := obj, coordinates := none, bbox := none })),
    action := some step.action,
    message := none,
    raw_response := none,
    coordinates_relative_to_camera_pose := none }

/-- Models `round(x, 4)` over exact rationals (the half-to-even detail of the
Python float round is immaterial to every claim, which never compares rounded
values at ties). -/
def round4 (q : ℚ) : ℚ :=
  ((q * 10000 + 1 / 2).floor : ℚ) / 10000

/-- Embeds `process_object` inside `addObjectCoordinates` (lines 241-290): the
localization collaborator is the `detect` parameter, taking the frame
reference and the object title; a per-object detection failure is caught in
the source and leaves the object unmodified, exactly like an empty detection
list, so `detect` returning `[]` covers both. -/
def ARGlassesInstruction.process_object (frame : String)
    (detect : String → String → List BBox) (obj : ObjectInfo) :
    ObjectInfo × Bool :=
  match detect frame obj.title with
  | [] => (obj, false)
  | best_bbox :: _ =>
    let center_x := round4 ((best_bbox.x_min + best_bbox.x_max) / 2)
    let center_y := round4 ((best_bbox.y_min + best_bbox.y_max) / 2)
    ({ obj with
        coordinates := some { x := center_x, y := center_y },
        bbox := some best_bbox }, true)

/-- Embeds `ARGlassesInstruction.addObjectCoordinates` (lines 170-364).  The
Python method mutates `self` and returns a Bool; here it returns the updated
instruction together with that Bool (`found_any_coordinates`).  The camera
pose is stored first (lines 189-190); with no focus objects (`None` or empty)
it returns early with `False` (lines 192-194); otherwise each object is
enriched from the first returned box with the rounded normalized center
(lines 241-302).  Visualization output (lines 304-362) has no effect on the
instruction or the return value and is not modelled; a failure to open the
frame file would return `False` without enriching and is treated as outside
the embedded domain (frames were just written by the handler). -/
def ARGlassesInstruction.addObjectCoordinates (inst : ARGlassesInstruction)
    (frame : String) (detect : String → String → List BBox)
    (camera_pose : Option String) : ARGlassesInstruction × Bool :=
  let inst1 :=
    match camera_pose with
    | some cp => { inst with coordinates_relative_to_camera_pose := some cp }
    | none => inst
  match inst1.objects with
  | none => (inst1, false)
  | some objs =>
    if objs.isEmpty then (inst1, false)
    else
      let results := objs.map (ARGlassesInstruction.process_object frame detect)
      ({ inst1 with objects := some (results.map Prod.fst) },
       results.any Prod.snd)

/-! ## processing/processFrame.py -/

/-- The parsed JSON response of the frame-analysis collaborator as read by
`processFrame.processFrame` (lines 170-184): an optional `status`, and the
optional `focus_objects` / `action` fields present for a derailed verdict. -/
structure AnalysisResponse where
  status : Option String
  focus_objects : Option (List String)
  action : Option String
deriving DecidableEq

/-- Outcome of the `OpenAI.frameAnalysis` call plus JSON extraction: either a
parsed response dict, or a failure (raised exception or no parseable JSON,
lines 252-295). -/
inductive AnalysisOutcome
  | ok (response : AnalysisResponse)
  | failure
deriving DecidableEq

/-- Embeds the verdict computation of `processFrame.processFrame`
(src/processing/processFrame.py lines 165-295): on success it returns
`response_data.get("status", "error")` and nothing else - the derailed
`focus_objects` and `action` fields are only logged (lines 181-185) and are
discarded; every failure path returns the string `error`.  Prompt
construction and visualization do not affect the returned status and are not
modelled. -/
def processFrame (outcome : AnalysisOutcome) : String :=
  match outcome with
  | AnalysisOutcome.ok r => r.status.getD "error"
  | AnalysisOutcome.failure => "error"

/-! ## connection/websocket_handlers.py - shared state and task activation

The module-level globals `current_task_object`, `current_task_state`,
`video_state`, `is_processing_frame` and `last_frame_process_time` become
explicit state records. -/

/-- The shared server state read and written by frame processing:
`current_task_state` and `video_state` (websocket_handlers.py lines 33-35). -/
structure ServerState where
  current_task_state : Option TaskState
  video_state : VideoState
deriving DecidableEq

/-- The globals of `websocket_handlers.py` visible to `set_active_task_for_websocket`. -/
structure WebSocketGlobals where
  current_task_object : Option Task
  current_task_state : Option TaskState
  video_state : VideoState
deriving DecidableEq

/-- Embeds `set_active_task_for_websocket` (websocket_handlers.py lines
124-162).  The Python guard `if current_task_object and
current_task_object.task_list:` tests truthiness of the step list, so a task
whose step list is empty falls into the else branch: the active task and the
task state are cleared and `video_state` is left untouched.  Only for a task
with at least one step is a fresh `TaskState` installed and `video_state`
replaced by a new empty `VideoState`. -/
def set_active_task_for_websocket (g : WebSocketGlobals) (task : Task)
    (initial_index : Int) : WebSocketGlobals :=
  if task.task_list ≠ [] then
    { current_task_object := some task,
      current_task_state := some { task := task, index := initial_index },
      video_state := { images := [] } }
  else
    { current_task_object := none,
      current_task_state := none,
      video_state := g.video_state }

/-! ## connection/websocket_handlers.py - frame processing

`process_frame_with_metadata` (lines 203-416) runs in the background task.
It sends at most one reply per call; the possible replies are modelled by
`Reply`.  Two AttributeError slips in the source shape its control flow:

* `addObjectCoordinates` returns a Bool, so the rebinding
  `first_instruction = first_instruction.addObjectCoordinates(...)` (line
  280) and `next_instruction = next_instruction.addObjectCoordinates(...)`
  (line 358) replace the instruction object by a Bool, and the later
  `.to_json()` calls on that Bool raise AttributeError.

* In the `completed_task` branch, when `moveToNextStep` returns the `None`
  terminal marker, `ARGlassesInstruction.from_step("completed_task", None)`
  (line 351) raises AttributeError inside `from_step` at
  `step.get_focus_objects()`.

Each such exception is caught by the except clause of lines 407-416, which
sends the generic server-error reply, except in the first-frame block whose
own except clause (lines 293-297) swallows the error and falls through to
regular processing. -/

/-- A reply sent over the websocket by `process_frame_with_metadata`: the
no-active-task error payload with status `no_task` (lines 243-247), an
instruction object (`ARGlassesInstruction.to_json`), or the generic
`Server error processing frame` payload of the outer except clause (lines
411-415). -/
inductive Reply
  | errorNoTask
  | instruction (i : ARGlassesInstruction)
  | serverError
deriving DecidableEq

/-- Result of one `process_frame_with_metadata` call: the updated shared
state, the reply sent (at most one), and the Bool return value. -/
structure ProcessResult where
  state : ServerState
  reply : Option Reply
  ok : Bool
deriving DecidableEq

/-- Embeds `process_frame_with_metadata` (websocket_handlers.py lines
203-416).  Parameters: `camera_pose` is `metadata.get("camera_pose", ...)`
kept opaque; `outcome` drives the frame-analysis collaborator inside
`processFrame`; `detect` is the object-localization collaborator.

Control flow, matching the source:

* No active task (lines 240-248): reply `errorNoTask`, return `False`;
  the frame is not appended to `video_state`.
* Otherwise append the frame (line 262).  The first-frame block (lines
  271-297) always ends in the swallowed AttributeError described above
  (the rebinding of line 280), sends nothing, and falls through, so it needs
  no separate branch here.
* `derailed` (lines 316-332): build `from_step` of the *current* step,
  enrich it in place ignoring the Bool result, and send it unconditionally;
  when `get_images()` were empty nothing would be sent (dead in practice,
  the append precedes).
* `executing_task` (lines 334-342): send `from_step` of the current step.
* `completed_task` (lines 344-371): advance the cursor.  A terminal `None`
  makes `from_step` raise (line 351) and the outer except replies
  `serverError`; otherwise the rebinding of line 358 makes line 371 raise,
  with the same `serverError` reply - unless `get_images()` were empty, in
  which case the un-enriched next-step instruction would be sent.
* `error` and unknown statuses (lines 385-403): send a minimal error
  instruction. -/
def process_frame_with_metadata (st : ServerState) (image_file_path : String)
    (camera_pose : Option String) (outcome : AnalysisOutcome)
    (detect : String → String → List BBox) : ProcessResult :=
  match st.current_task_state with
  | none =>
    { state := st, reply := some Reply.errorNoTask, ok := false }
  | some task_state =>
    let vs := st.video_state.add_image image_file_path
    let current_status := processFrame outcome
    if current_status = "derailed" then
      match vs.get_images.getLast? with
      | some latest_image =>
        let instruction := ARGlassesInstruction.from_step "derailed"
          task_state.getCurrentStep
        let enriched :=
          (instruction.addObjectCoordinates latest_image detect camera_pose).1
        { state := { current_task_state := some task_state, video_state := vs },
          reply := some (Reply.instruction enriched), ok := true }
      | none =>
        { state := { current_task_state := some task_state, video_state := vs },
          reply := none, ok := true }
    else if current_status = "executing_task" then
      let instruction := ARGlassesInstruction.from_step current_status
        task_state.getCurrentStep
      { state := { current_task_state := some task_state, video_state := vs },
        reply := some (Reply.instruction instruction), ok := true }
    else if current_status = "completed_task" then
      let advanced := task_state.moveToNextStep
      match advanced.2 with
      | none =>
        { state := { current_task_state := some advanced.1, video_state := vs },
          reply := some Reply.serverError, ok := false }
      | some next_step =>
        match vs.get_images.getLast? with
        | some _ =>
          { state := { current_task_state := some advanced.1, video_state := vs },
            reply := some Reply.serverError, ok := false }
        | none =>
          { state := { current_task_state := some advanced.1, video_state := vs },
            reply := some (Reply.instruction
              (ARGlassesInstruction.from_step "completed_task" next_step)),
            ok := true }
    else if current_status = "error" then
      { state := { current_task_state := some task_state, video_state := vs },
        reply := some (Reply.instruction
          { current_task_status := current_status, objects := none,
            action := none,
            message := some "An error occurred during processing",
            raw_response := none,
            coordinates_relative_to_camera_pose := none }), ok := true }
    else
      { state := { current_task_state := some task_state, video_state := vs },
        reply := some (Reply.instruction
          { current_task_status := "error", objects := none, action := none,
            message := some (String.append "Unknown task status: " current_status),
            raw_response := none,
            coordinates_relative_to_camera_pose := none }), ok := true }

/-! ## connection/websocket_handlers.py - the message loop of new_frame_handler -/

/-- `MIN_FRAME_INTERVAL` (websocket_handlers.py line 52): 200 ms. -/
def MIN_FRAME_INTERVAL : ℚ := 0.2

/-- The module-level globals touched by the binary-message branch of
`new_frame_handler` and by `process_frame_background`. -/
structure HandlerGlobals where
  server : ServerState
  is_processing_frame : Bool
  last_frame_process_time : ℚ
deriving DecidableEq

/-- The per-connection local state of `new_frame_handler`:
`expecting_metadata`, `current_metadata` (opaque) and the `client_frames`
list of frame paths saved by this connection. -/
structure ConnState where
  expecting_metadata : Bool
  current_metadata : Option String
  client_frames : List String
deriving DecidableEq

/-- What the binary-message branch did with a frame. -/
inductive FrameOutcome
  | rate_limited
  | dropped_busy
  | dispatched
deriving DecidableEq

/-- Embeds the binary-message branch of `new_frame_handler`
(websocket_handlers.py lines 483-569), reached with `expecting_metadata`
false, for a frame arriving at wall-clock time `now`:

* Rate limiting (lines 489-499): when less than `MIN_FRAME_INTERVAL` has
  passed since `last_frame_process_time`, the frame is skipped before the
  payload is saved: no reply, no disk write, no state change beyond the
  reset of the protocol phase.
* Otherwise the payload is saved under a fresh path, appended to
  `client_frames`, and the GUI is notified (lines 501-518; the save is
  assumed to succeed - an OSError would skip the frame like the busy case).
* Single-flight guard (lines 527-533): with `is_processing_frame` set the
  frame is dropped with no reply; the saved path stays only in
  `client_frames`, and nothing reaches the shared `video_state`.
* Otherwise the guard is acquired and the background processing task is
  created (lines 540-569).

In every branch the phase returns to expecting metadata and
`current_metadata` is cleared (lines 497-498, 531-532, 543-544). -/
def handle_image_message (g : HandlerGlobals) (c : ConnState) (now : ℚ)
    (image_file_path : String) : HandlerGlobals × ConnState × FrameOutcome :=
  let time_since_last := now - g.last_frame_process_time
  if time_since_last < MIN_FRAME_INTERVAL then
    (g,
     { expecting_metadata := true, current_metadata := none,
       client_frames := c.client_frames },
     FrameOutcome.rate_limited)
  else
    let c_saved : ConnState :=
      { expecting_metadata := c.expecting_metadata,
        current_metadata := c.current_metadata,
        client_frames := c.client_frames ++ [image_file_path] }
    if g.is_processing_frame then
      (g,
       { c_saved with expecting_metadata := true, current_metadata := none },
       FrameOutcome.dropped_busy)
    else
      ({ g with is_processing_frame := true },
       { c_saved with expecting_metadata := true, current_metadata := none },
       FrameOutcome.dispatched)

/-- The initial segment of `process_frame_with_metadata` that runs as soon as
the background task starts, before the slow analysis call: the no-task check
(lines 240-248) and the `video_state` append (line 262).  Only a dispatched
frame ever reaches this append; a frame dropped by the guard or by rate
limiting never does. -/
def frame_processing_append_phase (st : ServerState) (image_file_path : String) :
    ServerState :=
  match st.current_task_state with
  | none => st
  | some _ =>
    { current_task_state := st.current_task_state,
      video_state := st.video_state.add_image image_file_path }

/-- Embeds `process_frame_background` (websocket_handlers.py lines 612-670):
runs `process_frame_with_metadata`, then stores the completion time into
`last_frame_process_time` (line 662) and releases the single-flight guard in
the finally block (line 670).  `finish_time` is the wall-clock time at
completion. -/
def process_frame_background (g : HandlerGlobals) (image_file_path : String)
    (camera_pose : Option String) (outcome : AnalysisOutcome)
    (detect : String → String → List BBox) (finish_time : ℚ) :
    HandlerGlobals × Option Reply :=
  let result := process_frame_with_metadata g.server image_file_path
    camera_pose outcome detect
  ({ server := result.state, is_processing_frame := false,
     last_frame_process_time := finish_time },
   result.reply)

/-! ## Auxiliary predicates used by the theorems -/

/-- The acceptance condition the `task_list` setter actually enforces on a
dict element: a present string `action` (possibly empty) and a present
list-of-strings `focus_objects`. -/
def StepDict.isValid (d : StepDict) : Bool :=
  (match d.focus_objects with
   | DictField.value objs => objs.all PyListItem.isStr
   | _ => false) &&
  (match d.action with
   | DictField.value _ => true
   | _ => false)

/-- All dict elements of a `task_list` argument pass the setter checks
(`Step` elements are never checked). -/
def taskListValid (items : List TaskListItem) : Bool :=
  items.all (fun item =>
    match item with
    | TaskListItem.step _ => true
    | TaskListItem.dict d => d.isValid)

/-- Whether an `Except` computation succeeded (no exception was raised). -/
def exceptOk {ε α : Type} : Except ε α → Bool
  | Except.ok _ => true
  | Except.error _ => false

/-! ## A concrete two-frame scenario

The interleaving used to examine the concurrency behavior: a one-step task
is active, the guard is free and no frame has been processed yet; frame 1
arrives at time 1 and is dispatched; its background task performs the buffer
append and then calls the slow analysis collaborator; frame 2 arrives at
time 3/2 while the analysis is still in flight; the analysis completes at
time 2 with an `executing_task` verdict. -/

/-- Initial globals of the two-frame scenario. -/
def scenario_globals : HandlerGlobals :=
  { server :=
      { current_task_state :=
          some (TaskState.mk
            { name := "demo",
              task_list := [Step.mk "pick up cup" ["cup"]] } 0),
        video_state := { images := [] } },
    is_processing_frame := false, last_frame_process_time := 0 }

/-- Connection state of the scenario right before frame 1 (metadata already
received). -/
def scenario_conn : ConnState :=
  { expecting_metadata := false, current_metadata := some "meta1",
    client_frames := [] }

/-- Frame 1 arrives at time 1. -/
def scenario_step1 : HandlerGlobals × ConnState × FrameOutcome :=
  handle_image_message scenario_globals scenario_conn 1 "frame1.jpg"

/-- The background task of frame 1 has started and performed the buffer
append; the analysis call is still in flight, the guard still held. -/
def scenario_mid : HandlerGlobals :=
  { scenario_step1.1 with
    server := frame_processing_append_phase scenario_step1.1.server
      "frame1.jpg" }

/-- Frame 2 arrives at time 3/2, during the analysis of frame 1. -/
def scenario_step2 : HandlerGlobals × ConnState × FrameOutcome :=
  handle_image_message scenario_mid scenario_step1.2.1 (3/2) "frame2.jpg"

/-- The background task of frame 1 completes at time 2 (replayed from the
state at dispatch; frame 2's handling changed no globals). -/
def scenario_final : HandlerGlobals × Option Reply :=
  process_frame_background scenario_step1.1 "frame1.jpg" (some "pose")
    (AnalysisOutcome.ok
      { status := some "executing_task", focus_objects := none,
        action := none })
    (fun _ _ => []) 2

/-!
# Theorems

First the supporting lemmas about the embedded operations, then one theorem
per claim of the specification review (witnesses and counterexamples next to
their claims).
-/

/-! ## Frame Buffer lemmas -/

theorem VideoState.addAll_append_singleton (frames : List String) (x : String) :
    VideoState.addAll (frames ++ [x]) = (VideoState.addAll frames).add_image x := by
  simp [VideoState.addAll, List.foldl_append]

/-- The buffer after any sequence of adds is exactly the at-most-ten-element
suffix of the add sequence, oldest first. -/
theorem VideoState.addAll_eq_drop (frames : List String) :
    (VideoState.addAll frames).images = frames.drop (frames.length - 10) := by
  induction frames using List.reverseRecOn with
  | nil => simp [VideoState.addAll]
  | append_singleton l a ih =>
    rw [VideoState.addAll_append_singleton, VideoState.add_image, ih]
    by_cases hL : l.length < 10
    · have h0 : l.length - 10 = 0 := by omega
      have h1 : l.length + 1 - 10 = 0 := by omega
      simp [h0, h1, hL]
    · push_neg at hL
      have hlen : (l.drop (l.length - 10)).length = 10 := by
        rw [List.length_drop]; omega
      have hcond : 10 < (l.drop (l.length - 10) ++ [a]).length := by
        rw [List.length_append, hlen]; simp
      have hdlen : (l.drop (l.length - 10) ++ [a]).length - 10 = 1 := by
        simp [hlen]
      simp only [hcond, if_true, hdlen]
      rw [List.drop_append_of_le_length (by omega : 1 ≤ (l.drop (l.length - 10)).length),
          List.drop_drop]
      rw [List.length_append, List.length_singleton,
          List.drop_append_of_le_length (by omega : l.length + 1 - 10 ≤ l.length)]
      congr 2
      omega

/-- Appending to the buffer never produces an empty buffer. -/
theorem VideoState.add_image_ne_nil (vs : VideoState) (x : String) :
    (vs.add_image x).get_images ≠ [] := by
  unfold VideoState.add_image VideoState.get_images
  simp only
  split
  case isTrue h =>
    apply List.ne_nil_of_length_pos
    rw [List.length_drop]
    omega
  case isFalse h =>
    simp

/-! ## Frame-processing decomposition -/

/-- The append phase is an honest cut of `process_frame_with_metadata`: the
final `video_state` of a full call is already the one the append phase
produces; the remainder of processing never touches the frame buffer. -/
theorem video_state_after_processing (st : ServerState) (p : String)
    (cp : Option String) (o : AnalysisOutcome)
    (d : String → String → List BBox) :
    (process_frame_with_metadata st p cp o d).state.video_state =
      (frame_processing_append_phase st p).video_state := by
  unfold process_frame_with_metadata frame_processing_append_phase
  cases st.current_task_state with
  | none => rfl
  | some ts =>
    simp only
    split
    · split <;> rfl
    · split
      · rfl
      · split
        · split
          · rfl
          · split <;> rfl
        · split <;> rfl

/-! ## Handler branch lemmas -/

/-- The branch of `handle_image_message` taken when the rate limit passes and
the single-flight guard is free: the guard is acquired, the frame path is
saved into `client_frames`, and the background task is dispatched. -/
theorem handle_image_message_dispatched (g : HandlerGlobals) (c : ConnState)
    (now : ℚ) (p : String)
    (hfree : g.is_processing_frame = false)
    (hrate : ¬ now - g.last_frame_process_time < MIN_FRAME_INTERVAL) :
    handle_image_message g c now p =
      ({ g with is_processing_frame := true },
       { expecting_metadata := true, current_metadata := none,
         client_frames := c.client_frames ++ [p] },
       FrameOutcome.dispatched) := by
  unfold handle_image_message
  rw [if_neg hrate]
  simp [hfree]

/-- The branch of `handle_image_message` taken when the rate limit passes but
the single-flight guard is held: the frame path is saved into
`client_frames` and the frame is dropped; the globals are unchanged. -/
theorem handle_image_message_busy (g : HandlerGlobals) (c : ConnState)
    (now : ℚ) (p : String)
    (hbusy : g.is_processing_frame = true)
    (hrate : ¬ now - g.last_frame_process_time < MIN_FRAME_INTERVAL) :
    handle_image_message g c now p =
      (g,
       { expecting_metadata := true, current_metadata := none,
         client_frames := c.client_frames ++ [p] },
       FrameOutcome.dropped_busy) := by
  unfold handle_image_message
  rw [if_neg hrate]
  simp [hbusy]

/-! ## Enrichment lemmas -/

/-- Enrichment never changes the title of an object. -/
theorem process_object_title (frame : String)
    (detect : String → String → List BBox) (obj : ObjectInfo) :
    (ARGlassesInstruction.process_object frame detect obj).1.title = obj.title := by
  unfold ARGlassesInstruction.process_object
  cases h : detect frame obj.title <;> simp [h]

/-- A detector that never finds a box leaves every object unmodified. -/
theorem process_object_no_detection (frame : String)
    (detect : String → String → List BBox) (obj : ObjectInfo)
    (h : detect frame obj.title = []) :
    ARGlassesInstruction.process_object frame detect obj = (obj, false) := by
  unfold ARGlassesInstruction.process_object
  rw [h]

theorem map_process_object_no_detection (frame : String)
    (detect : String → String → List BBox)
    (hdet : ∀ f t, detect f t = []) (objs : List ObjectInfo) :
    (objs.map (ARGlassesInstruction.process_object frame detect)).map Prod.fst
      = objs := by
  induction objs with
  | nil => rfl
  | cons o rest ih =>
    simp only [List.map_cons, ih,
      process_object_no_detection frame detect o (hdet frame o.title)]

theorem titles_map_process_object (frame : String)
    (detect : String → String → List BBox) (objs : List ObjectInfo) :
    (((objs.map (ARGlassesInstruction.process_object frame detect)).map
        Prod.fst).map ObjectInfo.title) = objs.map ObjectInfo.title := by
  induction objs with
  | nil => rfl
  | cons o rest ih =>
    simp only [List.map_cons, ih, process_object_title]

/-- Enrichment only stores the camera pose and updates the coordinates/bbox
of the listed objects: the status, action and object titles are preserved. -/
theorem addObjectCoordinates_fields (inst : ARGlassesInstruction)
    (frame : String) (detect : String → String → List BBox)
    (cp : Option String) :
    ((inst.addObjectCoordinates frame detect cp).1).current_task_status
        = inst.current_task_status ∧
    ((inst.addObjectCoordinates frame detect cp).1).action = inst.action ∧
    ((inst.addObjectCoordinates frame detect cp).1).objects.map
        (List.map ObjectInfo.title)
      = inst.objects.map (List.map ObjectInfo.title) := by
  rcases inst with ⟨s, o, a, m, rr, cpp⟩
  rcases cp with _ | c <;> rcases o with _ | objs <;>
    simp only [ARGlassesInstruction.addObjectCoordinates] <;>
    (try split) <;>
    simp [titles_map_process_object] <;>
    exact fun x _ => process_object_title frame detect x

/-- With a detector that finds nothing, enrichment only stores the camera
pose. -/
theorem addObjectCoordinates_no_detection (inst : ARGlassesInstruction)
    (frame : String) (detect : String → String → List BBox)
    (cp : Option String) (hdet : ∀ f t, detect f t = []) :
    (inst.addObjectCoordinates frame detect cp).1 =
      (match cp with
       | some c => { inst with coordinates_relative_to_camera_pose := some c }
       | none => inst) := by
  rcases inst with ⟨s, o, a, m, rr, cpp⟩
  rcases cp with _ | c <;> rcases o with _ | objs <;>
    simp only [ARGlassesInstruction.addObjectCoordinates] <;>
    (try split) <;>
    simp_all [map_process_object_no_detection frame detect hdet]

/-! ## Task construction lemmas -/

/-- `validateStepDict` succeeds exactly on dicts passing `StepDict.isValid`. -/
theorem validateStepDict_ok (d : StepDict) :
    exceptOk (validateStepDict d) = d.isValid := by
  rcases d with ⟨a, f⟩
  cases f with
  | missing => cases a <;> rfl
  | wrongType => cases a <;> rfl
  | value objs =>
    by_cases hobjs : objs.all PyListItem.isStr <;>
      cases a <;>
      simp [validateStepDict, StepDict.isValid, hobjs, exceptOk]

/-- The `task_list` setter succeeds exactly when every dict element passes
the dict checks; `Step` elements never cause a failure. -/
theorem validateTaskList_ok (items : List TaskListItem) :
    exceptOk (validateTaskList items) = taskListValid items := by
  induction items with
  | nil => rfl
  | cons head rest ih =>
    cases head with
    | step s =>
      rcases h : validateTaskList rest with e | steps <;>
        simp_all [validateTaskList, taskListValid, exceptOk, h]
    | dict d =>
      rcases hd : validateStepDict d with e | st
      · have : d.isValid = false := by
          rw [← validateStepDict_ok, hd]; rfl
        simp_all [validateTaskList, taskListValid, exceptOk, hd]
      · have : d.isValid = true := by
          rw [← validateStepDict_ok, hd]; rfl
        rcases h : validateTaskList rest with e | steps <;>
          simp_all [validateTaskList, taskListValid, exceptOk, hd, h]

theorem taskListValid_iff (items : List TaskListItem) :
    taskListValid items = true ↔
      ∀ d, TaskListItem.dict d ∈ items → d.isValid = true := by
  rw [taskListValid, List.all_eq_true]
  constructor
  · intro h d hd
    exact h (TaskListItem.dict d) hd
  · intro h item hitem
    cases item with
    | step s => rfl
    | dict d => exact h d hitem

/-! ## Claim C5 -/

/-- C5: when no task is active, `process_frame_with_metadata` sends exactly
one reply, the `no_task` error payload, and leaves the shared state - in
particular the Frame Buffer - unchanged: the frame reference is not added. -/
theorem c5_no_task_single_reply_frame_discarded (st : ServerState)
    (p : String) (cp : Option String) (o : AnalysisOutcome)
    (d : String → String → List BBox)
    (h : st.current_task_state = none) :
    process_frame_with_metadata st p cp o d =
      { state := st, reply := some Reply.errorNoTask, ok := false } := by
  unfold process_frame_with_metadata
  rw [h]

theorem c5_witness :
    (ServerState.mk none { images := [] }).current_task_state = none ∧
    process_frame_with_metadata (ServerState.mk none { images := [] }) "f1"
        none AnalysisOutcome.failure (fun _ _ => []) =
      { state := ServerState.mk none { images := [] },
        reply := some Reply.errorNoTask, ok := false } :=
  ⟨rfl,
   c5_no_task_single_reply_frame_discarded (ServerState.mk none { images := [] })
     "f1" none AnalysisOutcome.failure (fun _ _ => []) rfl⟩

/-! ## Claim C8 -/

/-- C8: for every integer index outside `[0, len(steps))`, `Task.getStep`
returns the sentinel step with action `none` and empty focus objects (and,
the embedding being total, never raises on integer input). -/
theorem c8_getStep_out_of_range_sentinel (t : Task) (index : Int)
    (h : index < 0 ∨ (t.task_list.length : Int) ≤ index) :
    t.getStep index = { action := "none", focus_objects := [] } := by
  unfold Task.getStep
  rw [dif_pos h]

theorem c8_witness :
    ((-1 : Int) < 0 ∨
      ((Task.mk "t" [Step.mk "wash hands" ["soap"]]).task_list.length : Int)
        ≤ -1) ∧
    (Task.mk "t" [Step.mk "wash hands" ["soap"]]).getStep (-1) =
      { action := "none", focus_objects := [] } :=
  ⟨Or.inl (by decide),
   c8_getStep_out_of_range_sentinel (Task.mk "t" [Step.mk "wash hands" ["soap"]])
     (-1) (Or.inl (by decide))⟩

/-! ## Claim C9 -/

/-- C9: after any sequence of adds to a fresh Frame Buffer the snapshot is
the at-most-ten-element suffix of the add sequence in arrival order (oldest
first), its length is `min N 10`, it never exceeds ten elements, and its
last element is always the most recently added frame reference. -/
theorem c9_frame_buffer_bounded_ordered (frames : List String) (x : String) :
    (VideoState.addAll frames).get_images
        = frames.drop (frames.length - 10) ∧
    (VideoState.addAll frames).get_images.length = min frames.length 10 ∧
    (VideoState.addAll frames).get_images.length ≤ 10 ∧
    (VideoState.addAll (frames ++ [x])).get_images.getLast? = some x := by
  refine ⟨VideoState.addAll_eq_drop frames, ?_, ?_, ?_⟩
  · rw [VideoState.get_images, VideoState.addAll_eq_drop, List.length_drop]
    omega
  · rw [VideoState.get_images, VideoState.addAll_eq_drop, List.length_drop]
    omega
  · rw [VideoState.get_images, VideoState.addAll_eq_drop,
      List.drop_append_of_le_length
        (by rw [List.length_append, List.length_singleton]; omega),
      List.getLast?_concat]

/-! ## Claim C10 -/

/-- C10: a binary frame arriving in the awaiting-image phase less than
`MIN_FRAME_INTERVAL` after the last completed frame processing is dropped
before anything else happens: the globals (Frame Buffer, guard, timestamps)
are untouched, the payload is not saved (`client_frames` unchanged), no
reply is produced, and the phase resets to expecting metadata. -/
theorem c10_rate_limited_frame_fully_dropped (g : HandlerGlobals)
    (c : ConnState) (now : ℚ) (p : String)
    (h : now - g.last_frame_process_time < MIN_FRAME_INTERVAL) :
    handle_image_message g c now p =
      (g,
       { expecting_metadata := true, current_metadata := none,
         client_frames := c.client_frames },
       FrameOutcome.rate_limited) := by
  unfold handle_image_message
  rw [if_pos h]

theorem c10_witness :
    ((1/10 : ℚ) -
        (HandlerGlobals.mk (ServerState.mk none { images := [] }) false
          0).last_frame_process_time < MIN_FRAME_INTERVAL) ∧
    handle_image_message
        (HandlerGlobals.mk (ServerState.mk none { images := [] }) false 0)
        (ConnState.mk false (some "meta") ["old.jpg"]) (1/10) "new.jpg" =
      (HandlerGlobals.mk (ServerState.mk none { images := [] }) false 0,
       { expecting_metadata := true, current_metadata := none,
         client_frames := ["old.jpg"] },
       FrameOutcome.rate_limited) :=
  ⟨by norm_num [MIN_FRAME_INTERVAL],
   c10_rate_limited_frame_fully_dropped
     (HandlerGlobals.mk (ServerState.mk none { images := [] }) false 0)
     (ConnState.mk false (some "meta") ["old.jpg"]) (1/10) "new.jpg"
     (by norm_num [MIN_FRAME_INTERVAL])⟩

/-! ## Claim C6 -/

/-- C6 counterexample: activating a Task with an empty step list (a valid
Task) does not install a fresh cursor over that Task and does not reset the
Frame Buffer; instead the active task and cursor are cleared and the buffer
keeps its old contents. -/
theorem c6_counterexample :
    set_active_task_for_websocket
        { current_task_object := none, current_task_state := none,
          video_state := { images := ["stale.jpg"] } }
        { name := "empty task", task_list := [] } 0 =
      { current_task_object := none, current_task_state := none,
        video_state := { images := ["stale.jpg"] } } := by
  rfl

/-- C6 amended: task activation replaces the shared cursor with a fresh one
and resets the Frame Buffer exactly when the supplied Task has a non-empty
step list; with an empty step list the active task and cursor are cleared
and the Frame Buffer is left unchanged. -/
theorem c6_activation_resets_only_nonempty (g : WebSocketGlobals)
    (task : Task) (idx : Int) :
    (task.task_list ≠ [] →
      set_active_task_for_websocket g task idx =
        { current_task_object := some task,
          current_task_state := some { task := task, index := idx },
          video_state := { images := [] } }) ∧
    (task.task_list = [] →
      set_active_task_for_websocket g task idx =
        { current_task_object := none, current_task_state := none,
          video_state := g.video_state }) := by
  constructor <;> intro h <;> simp [set_active_task_for_websocket, h]

theorem c6_witness :
    set_active_task_for_websocket
        { current_task_object := none, current_task_state := none,
          video_state := { images := ["stale.jpg"] } }
        { name := "one step", task_list := [Step.mk "stir" ["spoon"]] } 2 =
      { current_task_object :=
          some { name := "one step", task_list := [Step.mk "stir" ["spoon"]] },
        current_task_state :=
          some { task := { name := "one step",
                           task_list := [Step.mk "stir" ["spoon"]] },
                 index := 2 },
        video_state := { images := [] } } :=
  (c6_activation_resets_only_nonempty
      { current_task_object := none, current_task_state := none,
        video_state := { images := ["stale.jpg"] } }
      { name := "one step", task_list := [Step.mk "stir" ["spoon"]] } 2).1
    (by decide)

/-! ## Claim C7 -/

/-- C7 counterexample: a step dict whose action is the empty string (so the
step lacks a non-empty string action) is accepted by `Task(name, steps)`
without any error, contradicting the claimed if-and-only-if. -/
theorem c7_counterexample :
    Task.build "t" (some [TaskListItem.dict
        { action := DictField.value "",
          focus_objects := DictField.value [] }]) =
      Except.ok { name := "t",
                  task_list := [{ action := "", focus_objects := [] }] } := by
  rfl

/-- C7 amended: `Task(name, steps)` fails with a validation error if and
only if some element supplied as a dict lacks an `action` key with a string
value (an empty string is accepted) or a `focus_objects` key with a
list-of-strings value; elements supplied as already-constructed `Step`
objects are accepted without any validation. -/
theorem c7_build_fails_iff_dict_invalid (name : String)
    (items : List TaskListItem) :
    exceptOk (Task.build name (some items)) = true ↔
      ∀ d, TaskListItem.dict d ∈ items → d.isValid = true := by
  rw [← taskListValid_iff, ← validateTaskList_ok]
  unfold Task.build
  rcases h : validateTaskList items with e | steps <;> simp [h, exceptOk]

/-! ## Claim C3 -/

/-- C3 (code behavior at the failing input): with a one-step task at index 0
and a `completed_task` verdict, `moveToNextStep` returns the terminal `None`
marker, and instead of a completion instruction the client receives the
generic server-error reply: `from_step("completed_task", None)` raises
AttributeError, caught by the outer except clause.  The cursor advance and
the buffer append do persist. -/
theorem c3_terminal_completed_task_sends_server_error :
    (TaskState.mk
        { name := "demo",
          task_list := [Step.mk "pick up cup" ["cup"]] } 0).moveToNextStep.2
      = none ∧
    process_frame_with_metadata
        { current_task_state := some (TaskState.mk
            { name := "demo",
              task_list := [Step.mk "pick up cup" ["cup"]] } 0),
          video_state := { images := ["f0.jpg"] } }
        "f1.jpg" (some "pose")
        (AnalysisOutcome.ok
          { status := some "completed_task", focus_objects := none,
            action := none })
        (fun _ _ => []) =
      { state :=
          { current_task_state := some (TaskState.mk
              { name := "demo",
                task_list := [Step.mk "pick up cup" ["cup"]] } 1),
            video_state := { images := ["f0.jpg", "f1.jpg"] } },
        reply := some Reply.serverError, ok := false } := by
  exact ⟨rfl, rfl⟩

/-! ## Claim C2 -/

/-- C2 counterexample: a derailed cycle in which the localization
collaborator returns zero boxes for every object still sends an instruction
to the client - the Bool result of `addObjectCoordinates` is discarded at
websocket_handlers.py line 322 and `log_and_send` runs unconditionally. -/
theorem c2_counterexample :
    (process_frame_with_metadata
        { current_task_state := some (TaskState.mk
            { name := "demo",
              task_list := [Step.mk "pick up cup" ["cup"]] } 0),
          video_state := { images := ["f0.jpg"] } }
        "f1.jpg" (some "pose")
        (AnalysisOutcome.ok
          { status := some "derailed", focus_objects := some ["bottle"],
            action := some "grab the bottle" })
        (fun _ _ => [])).reply =
      some (Reply.instruction
        { current_task_status := "derailed",
          objects := some [{ title := "cup", coordinates := none,
                             bbox := none }],
          action := some "pick up cup",
          message := none, raw_response := none,
          coordinates_relative_to_camera_pose := some "pose" }) := by
  rfl

/-- C2 amended: on a derailed verdict the instruction is sent regardless of
the enrichment result; when the localization collaborator finds zero boxes
the client still receives the derailed instruction, with no coordinates
attached to any object. -/
theorem c2_derailed_sends_despite_zero_detections (st : ServerState)
    (ts : TaskState) (p : String) (cp : Option String) (r : AnalysisResponse)
    (detect : String → String → List BBox)
    (hts : st.current_task_state = some ts)
    (hst : r.status = some "derailed")
    (hdet : ∀ f t, detect f t = []) :
    ∃ i, (process_frame_with_metadata st p cp (AnalysisOutcome.ok r)
        detect).reply = some (Reply.instruction i) ∧
      i.current_task_status = "derailed" ∧
      i.objects = some ((ts.getCurrentStep).focus_objects.map (fun t =>
        { title := t, coordinates := none, bbox := none })) := by
  have hne := VideoState.add_image_ne_nil st.video_state p
  obtain ⟨latest, hlast⟩ :
      ∃ l, (st.video_state.add_image p).get_images.getLast? = some l := by
    rw [← Option.isSome_iff_exists, List.getLast?_isSome]
    exact hne
  have hpf : processFrame (AnalysisOutcome.ok r) = "derailed" := by
    simp [processFrame, hst]
  have key : (process_frame_with_metadata st p cp (AnalysisOutcome.ok r)
      detect).reply =
      some (Reply.instruction
        ((ARGlassesInstruction.from_step "derailed"
          ts.getCurrentStep).addObjectCoordinates latest detect cp).1) := by
    unfold process_frame_with_metadata
    rw [hts]
    simp [hpf, hlast]
  refine ⟨_, key, ?_, ?_⟩
  · rw [addObjectCoordinates_no_detection _ _ _ _ hdet]
    cases cp <;> rfl
  · rw [addObjectCoordinates_no_detection _ _ _ _ hdet]
    cases cp <;> rfl

theorem c2_witness :
    ∃ i, (process_frame_with_metadata
        { current_task_state := some (TaskState.mk
            { name := "mix",
              task_list := [Step.mk "whisk eggs" ["whisk", "bowl"]] } 0),
          video_state := { images := [] } }
        "w1.jpg" none
        (AnalysisOutcome.ok
          { status := some "derailed", focus_objects := some ["pan"],
            action := some "put down the pan" })
        (fun _ _ => [])).reply = some (Reply.instruction i) ∧
      i.current_task_status = "derailed" ∧
      i.objects = some (((TaskState.mk
          { name := "mix",
            task_list := [Step.mk "whisk eggs" ["whisk", "bowl"]] }
          0).getCurrentStep).focus_objects.map (fun t =>
        { title := t, coordinates := none, bbox := none })) :=
  c2_derailed_sends_despite_zero_detections _ _ "w1.jpg" none _ _
    rfl rfl (fun _ _ => rfl)

/-! ## Claim C4 -/

/-- C4 counterexample: on a derailed verdict whose analysis response carries
the corrective action `put down the knife` and focus objects `[mug]`, the
instruction actually sent carries the current step's action `pour water` and
focus object `kettle`: the verdict fields never leave
`processFrame.processFrame`, which returns only the status string. -/
theorem c4_counterexample :
    ((process_frame_with_metadata
        { current_task_state := some (TaskState.mk
            { name := "kitchen",
              task_list := [Step.mk "pour water" ["kettle"]] } 0),
          video_state := { images := ["g0.jpg"] } }
        "g1.jpg" none
        (AnalysisOutcome.ok
          { status := some "derailed", focus_objects := some ["mug"],
            action := some "put down the knife" })
        (fun _ _ => [])).reply =
      some (Reply.instruction
        { current_task_status := "derailed",
          objects := some [{ title := "kettle", coordinates := none,
                             bbox := none }],
          action := some "pour water",
          message := none, raw_response := none,
          coordinates_relative_to_camera_pose := none })) ∧
    (some "pour water" : Option String) ≠ some "put down the knife" ∧
    (["kettle"] : List String) ≠ ["mug"] := by
  exact ⟨rfl, by decide, by decide⟩

/-- C4 amended: the instruction sent on a derailed verdict carries the
action and focus-object names of the currently active task step; the
corrective action and focus objects of the analysis verdict are discarded,
and the whole processing result is independent of them. -/
theorem c4_derailed_instruction_uses_current_step (st : ServerState)
    (ts : TaskState) (p : String) (cp : Option String)
    (r r2 : AnalysisResponse) (detect : String → String → List BBox)
    (hts : st.current_task_state = some ts)
    (h1 : r.status = some "derailed") (h2 : r2.status = some "derailed") :
    process_frame_with_metadata st p cp (AnalysisOutcome.ok r) detect =
      process_frame_with_metadata st p cp (AnalysisOutcome.ok r2) detect ∧
    ∀ i, (process_frame_with_metadata st p cp (AnalysisOutcome.ok r)
        detect).reply = some (Reply.instruction i) →
      i.action = some (ts.getCurrentStep).action ∧
      i.objects.map (List.map ObjectInfo.title)
        = some (ts.getCurrentStep).focus_objects := by
  have hne := VideoState.add_image_ne_nil st.video_state p
  obtain ⟨latest, hlast⟩ :
      ∃ l, (st.video_state.add_image p).get_images.getLast? = some l := by
    rw [← Option.isSome_iff_exists, List.getLast?_isSome]
    exact hne
  have hpf1 : processFrame (AnalysisOutcome.ok r) = "derailed" := by
    simp [processFrame, h1]
  have hpf2 : processFrame (AnalysisOutcome.ok r2) = "derailed" := by
    simp [processFrame, h2]
  have key : (process_frame_with_metadata st p cp (AnalysisOutcome.ok r)
      detect).reply =
      some (Reply.instruction
        ((ARGlassesInstruction.from_step "derailed"
          ts.getCurrentStep).addObjectCoordinates latest detect cp).1) := by
    unfold process_frame_with_metadata
    rw [hts]
    simp [hpf1, hlast]
  constructor
  · unfold process_frame_with_metadata
    rw [hts]
    simp only [hpf1, hpf2]
  · intro i hi
    rw [key] at hi
    have hi2 : ((ARGlassesInstruction.from_step "derailed"
        ts.getCurrentStep).addObjectCoordinates latest detect cp).1 = i := by
      injection hi with h
      injection h
    subst hi2
    have hfields := addObjectCoordinates_fields
      (ARGlassesInstruction.from_step "derailed" ts.getCurrentStep)
      latest detect cp
    refine ⟨?_, ?_⟩
    · rw [hfields.2.1]
      rfl
    · rw [hfields.2.2]
      simp [ARGlassesInstruction.from_step, List.map_map, Function.comp]
      induction ts.getCurrentStep.focus_objects with
      | nil => rfl
      | cons a l ih => simpa using ih

theorem c4_witness :
    (process_frame_with_metadata
        { current_task_state := some (TaskState.mk
            { name := "kitchen",
              task_list := [Step.mk "pour water" ["kettle"]] } 0),
          video_state := { images := ["g0.jpg"] } }
        "g1.jpg" none
        (AnalysisOutcome.ok
          { status := some "derailed", focus_objects := some ["mug"],
            action := some "put down the knife" })
        (fun _ _ => []) =
      process_frame_with_metadata
        { current_task_state := some (TaskState.mk
            { name := "kitchen",
              task_list := [Step.mk "pour water" ["kettle"]] } 0),
          video_state := { images := ["g0.jpg"] } }
        "g1.jpg" none
        (AnalysisOutcome.ok
          { status := some "derailed", focus_objects := none,
            action := none })
        (fun _ _ => [])) ∧
    ∀ i, (process_frame_with_metadata
        { current_task_state := some (TaskState.mk
            { name := "kitchen",
              task_list := [Step.mk "pour water" ["kettle"]] } 0),
          video_state := { images := ["g0.jpg"] } }
        "g1.jpg" none
        (AnalysisOutcome.ok
          { status := some "derailed", focus_objects := some ["mug"],
            action := some "put down the knife" })
        (fun _ _ => [])).reply = some (Reply.instruction i) →
      i.action = some ((TaskState.mk
          { name := "kitchen",
            task_list := [Step.mk "pour water" ["kettle"]] }
          0).getCurrentStep).action ∧
      i.objects.map (List.map ObjectInfo.title)
        = some ((TaskState.mk
            { name := "kitchen",
              task_list := [Step.mk "pour water" ["kettle"]] }
            0).getCurrentStep).focus_objects :=
  c4_derailed_instruction_uses_current_step _ _ "g1.jpg" none _ _ _
    rfl rfl rfl

/-! ## Claim C1 -/

/-- C1 counterexample: two frames back-to-back while analysis of the first
is in flight.  Frame 1 is dispatched at time 1 and its background append
runs (the buffer holds `frame1`); frame 2 arrives at time 3/2 while the
guard is still held and is dropped with no reply - but after the analysis
completes the Frame Buffer holds only `frame1`: the reference of the dropped
frame 2 exists only on disk, in the connection's `client_frames`, and never
reaches the shared buffer, because the buffer append runs inside the guarded
background task rather than for every frame. -/
theorem c1_counterexample :
    scenario_step1.2.2 = FrameOutcome.dispatched ∧
    scenario_mid.server.video_state.get_images = ["frame1.jpg"] ∧
    scenario_step2.2.2 = FrameOutcome.dropped_busy ∧
    scenario_step2.1 = scenario_mid ∧
    scenario_step2.2.1.client_frames = ["frame1.jpg", "frame2.jpg"] ∧
    scenario_final.1.server.video_state.get_images = ["frame1.jpg"] ∧
    ¬ "frame2.jpg" ∈ scenario_final.1.server.video_state.get_images := by
  have h1 : scenario_step1 =
      ({ scenario_globals with is_processing_frame := true },
       { expecting_metadata := true, current_metadata := none,
         client_frames := ["frame1.jpg"] },
       FrameOutcome.dispatched) := by
    unfold scenario_step1
    rw [handle_image_message_dispatched _ _ _ _ rfl
      (by norm_num [scenario_globals, MIN_FRAME_INTERVAL])]
    rfl
  have hmid : scenario_mid =
      { server :=
          { current_task_state :=
              some (TaskState.mk
                { name := "demo",
                  task_list := [Step.mk "pick up cup" ["cup"]] } 0),
            video_state := { images := ["frame1.jpg"] } },
        is_processing_frame := true, last_frame_process_time := 0 } := by
    unfold scenario_mid
    rw [h1]
    rfl
  have h2 : scenario_step2 =
      (scenario_mid,
       { expecting_metadata := true, current_metadata := none,
         client_frames := ["frame1.jpg", "frame2.jpg"] },
       FrameOutcome.dropped_busy) := by
    unfold scenario_step2
    rw [h1, hmid,
      handle_image_message_busy _ _ _ _ rfl
        (by norm_num [MIN_FRAME_INTERVAL])]
    rfl
  have h3 : scenario_final.1.server.video_state.get_images =
      ["frame1.jpg"] := by
    unfold scenario_final
    rw [h1]
    rfl
  refine ⟨?_, ?_, ?_, ?_, ?_, h3, ?_⟩
  · rw [h1]
  · rw [hmid]
    rfl
  · rw [h2]
  · rw [h2]
  · rw [h2]
  · rw [h3]
    decide

/-- C1 amended: a binary frame handled in the awaiting-image phase while the
single-flight guard is held is saved to disk and tracked in the connection's
`client_frames`, then dropped with no reply and with the shared globals -
including the Frame Buffer - left completely unchanged: the dropped frame's
reference never enters the buffer, whose append happens only inside the
guarded background processing of an accepted frame. -/
theorem c1_busy_frame_dropped_without_buffer_append (g : HandlerGlobals)
    (c : ConnState) (now : ℚ) (p : String)
    (hbusy : g.is_processing_frame = true)
    (hrate : ¬ now - g.last_frame_process_time < MIN_FRAME_INTERVAL) :
    handle_image_message g c now p =
      (g,
       { expecting_metadata := true, current_metadata := none,
         client_frames := c.client_frames ++ [p] },
       FrameOutcome.dropped_busy) := by
  unfold handle_image_message
  rw [if_neg hrate]
  simp [hbusy]

theorem c1_witness :
    handle_image_message
        (HandlerGlobals.mk (ServerState.mk none { images := ["a.jpg"] })
          true 0)
        (ConnState.mk false none []) 1 "b.jpg" =
      (HandlerGlobals.mk (ServerState.mk none { images := ["a.jpg"] })
        true 0,
       { expecting_metadata := true, current_metadata := none,
         client_frames := ["b.jpg"] },
       FrameOutcome.dropped_busy) :=
  c1_busy_frame_dropped_without_buffer_append
    (HandlerGlobals.mk (ServerState.mk none { images := ["a.jpg"] }) true 0)
    (ConnState.mk false none []) 1 "b.jpg" rfl
    (by norm_num [MIN_FRAME_INTERVAL])

end WorkAR
